import Mathlib

/-
Verification of the trigram fuzzy-search and thread-moderation engine of the
SUTT_TASK_3 forum application.  The definitions below are a shallow embedding
of src/threads/views.py, src/threads/forms.py and the data-population commands;
model code that the repository declares but does not ship under src/ is
modelled from the specification and marked as such in its doc comment.
Timestamps are integer seconds.
-/

namespace Forum

/-- Status of a Report.  Modelled from the spec: the `Report` model is imported
from `threads.models` by src/threads/views.py and src/threads/forms.py but its
declaration is not under src/; spec section 3 gives status in
\x7bPENDING, RESOLVED\x7d with PENDING set at creation. -/
inductive ReportStatus
  | pending
  | resolved
deriving DecidableEq

/-- A forum thread.  Fields mirror the `Thread` model as used by
src/threads/views.py: partly declared in src/threads/models.py (category,
title, author, created_at); the remaining fields (`upvote_count`, `upvotes`,
`tags`, `is_locked`, `is_deleted`) are modelled from the spec (section 3), as
the shipped models.py omits them while views.py reads all of them. -/
structure Thread where
  id : Nat
  category : Nat
  title : String
  author : Nat
  created_at : Int
  upvote_count : Nat
  upvotes : Finset Nat
  tags : List String
  is_locked : Bool
  is_deleted : Bool
deriving DecidableEq

/-- A reply to a thread.  Fields mirror the `Reply` model as used by
src/threads/views.py: partly declared in src/threads/models.py (author,
content, created_at); `thread`, `upvote_count`, `upvotes` and `is_deleted` are
modelled from the spec (section 3). -/
structure Reply where
  id : Nat
  thread : Nat
  author : Nat
  content : String
  created_at : Int
  upvote_count : Nat
  upvotes : Finset Nat
  is_deleted : Bool
deriving DecidableEq

/-- A report.  Modelled from the spec: the `Report` model declaration is not
under src/; spec section 3 gives reporter, a target that is one of a thread
reference or a reply reference (two nullable fields in the relational store,
set by `ReportCreateView.form_valid` in src/threads/views.py), reason, status
and creation timestamp. -/
structure Report where
  reporter : Nat
  thread : Option Nat
  reply : Option Nat
  reason : String
  status : ReportStatus
  created_at : Int
deriving DecidableEq

/-- Errors surfaced by the report-creation flow: `rateLimited` embeds the
`forms.ValidationError` raised by `ReportCreateForm.clean`
(src/threads/forms.py) and `http404` the `Http404` raised by
`ReportCreateView.dispatch` (src/threads/views.py). -/
inductive ReportError
  | rateLimited
  | http404
deriving DecidableEq

/-- The rate-limit count of `ReportCreateForm.clean` (src/threads/forms.py,
lines 17-23): the number of reports by this reporter whose `created_at` is at
or after `timezone.now() - timedelta(minutes=5)`, i.e. `now - 300` seconds. -/
def reportWindowCount (reports : List Report) (reporter : Nat) (now : Int) : Nat :=
  (reports.filter (fun r => decide (r.reporter = reporter ∧ now - 300 ≤ r.created_at))).length

/-- The report record built by `ReportCreateView.form_valid`
(src/threads/views.py, lines 192-199): the reporter is the requesting user and
matching on the target kind binds exactly one of the two target fields. -/
def mkReport (reporter : Nat) (ty : String) (pk : Nat) (reason : String)
    (now : Int) : Report :=
  { reporter := reporter
    thread := if ty = "thread" then some pk else none
    reply := if ty = "reply" then some pk else none
    reason := reason
    status := .pending
    created_at := now }

/-- The report-submission flow of `ReportCreateView` (src/threads/views.py):
`dispatch` raises `Http404` unless the target kind `ty` is `thread` or `reply`
(lines 213-216); then the form is validated, `ReportCreateForm.clean`
(src/threads/forms.py) rejecting with a validation error when the reporter has
3 or more reports in the trailing 5-minute window; on success `form_valid`
binds the reporter and exactly one target and the new report is saved.
Returns the created report and the updated report table. -/
def reportCreatePost (reports : List Report) (reporter : Nat) (ty : String)
    (pk : Nat) (reason : String) (now : Int) :
    Except ReportError (Report × List Report) :=
  if ty = "thread" ∨ ty = "reply" then
    if 3 ≤ reportWindowCount reports reporter now then
      .error .rateLimited
    else
      .ok (mkReport reporter ty pk reason now,
        mkReport reporter ty pk reason now :: reports)
  else
    .error .http404

/-- ASCII lowercasing of a character, the effect of the Python `str.lower()`
normalization on the ASCII titles and queries of this forum. -/
def lowerChar (c : Char) : Char :=
  if 64 < c.toNat ∧ c.toNat < 91 then Char.ofNat (c.toNat + 32) else c

/-- ASCII lowercasing of a string, character by character. -/
def lowerStr (s : String) : String := String.mk (s.data.map lowerChar)

/-- Modelled from the spec: the trigram indexer is declared on the `Thread`
model but is not under src/.  Spec sections 4.1 and 4.2: lowercase, pad with
one space on each side, and emit every 3-character substring; a padded text of
length L yields L - 2 shingles. -/
def shingles (s : String) : List String :=
  let p := (" " ++ lowerStr s ++ " ").toList
  (List.range (p.length - 2)).map (fun i => String.mk ((p.drop i).take 3))

/-- Modelled from the spec (section 4.2): the relevance score of a title for a
query is the number of matching shingle occurrences, counting repeats once per
occurrence, i.e. the cardinality of the multiset intersection of the two
shingle multisets. -/
def matchScore (q title : String) : Nat :=
  ((Multiset.ofList (shingles q)) ∩ (Multiset.ofList (shingles title))).card

/-- Modelled from the spec: `Thread.fuzzy_search` is called by
`ThreadListView.get_queryset` (src/threads/views.py, lines 32-41) but its body
is not under src/.  Spec section 4.2: shingle the padded query, accumulate per
thread the number of matching shingle occurrences, discard any thread whose
score is below 2 and sort the remainder by score descending. -/
def fuzzy_search (threads : List Thread) (q : String) : List Thread :=
  List.insertionSort (fun a b => matchScore q b.title ≤ matchScore q a.title)
    (threads.filter (fun t => decide (2 ≤ matchScore q t.title)))

/-- The ordering constraint placed on thread rows by the single sort key that
`ThreadListView.get_queryset` passes to `.order_by`: both recognized keys are
descending, and a key constrains nothing it does not name. -/
def threadKeyGE (key : String) (a b : Thread) : Prop :=
  (key = "-upvote_count" → b.upvote_count ≤ a.upvote_count)
  ∧ (key = "-created_at" → b.created_at ≤ a.created_at)

instance (key : String) : DecidableRel (threadKeyGE key) :=
  fun _ _ => inferInstanceAs (Decidable (_ ∧ _))

instance (key : String) : IsTotal Thread (threadKeyGE key) := by
  constructor
  intro x y
  by_cases h1 : key = "-upvote_count"
  · rcases Nat.le_total y.upvote_count x.upvote_count with h | h
    · exact Or.inl ⟨fun _ => h, fun hc => absurd (h1 ▸ hc) (by decide)⟩
    · exact Or.inr ⟨fun _ => h, fun hc => absurd (h1 ▸ hc) (by decide)⟩
  · by_cases h2 : key = "-created_at"
    · rcases le_total y.created_at x.created_at with h | h
      · exact Or.inl ⟨fun hc => absurd hc h1, fun _ => h⟩
      · exact Or.inr ⟨fun hc => absurd hc h1, fun _ => h⟩
    · exact Or.inl ⟨fun hc => absurd hc h1, fun hc => absurd hc h2⟩

instance (key : String) : IsTrans Thread (threadKeyGE key) := by
  constructor
  intro x y z hxy hyz
  exact ⟨fun h => le_trans (hyz.1 h) (hxy.1 h), fun h => le_trans (hyz.2 h) (hxy.2 h)⟩

/-- The ordering constraint placed on reply rows by the single sort key that
`ThreadDetailView.get_context_data` passes to `.order_by`. -/
def replyKeyGE (key : String) (a b : Reply) : Prop :=
  (key = "-upvote_count" → b.upvote_count ≤ a.upvote_count)
  ∧ (key = "-created_at" → b.created_at ≤ a.created_at)

instance (key : String) : DecidableRel (replyKeyGE key) :=
  fun _ _ => inferInstanceAs (Decidable (_ ∧ _))

/-- One realization of the store answering `.order_by(key)`: a stable sort of
the candidate rows by the key (ties keep table order, as a rowid scan does). -/
def orderByThreads (key : String) (l : List Thread) : List Thread :=
  List.insertionSort (threadKeyGE key) l

/-- The candidate rows of `ThreadListView.get_queryset` (src/threads/views.py,
lines 32-41) before ordering: `query` is `request.GET.get('q')` (absent gives
none, and an empty string is falsy so no full-text filter runs), then the
category, soft-delete and optional tag filters are applied; `filtersPresent`
mirrors the truthiness of `request.GET.get('f')` and `selected_tags` the tag
names parsed from it in `setup`. -/
def threadListCandidates (threads : List Thread) (query : Option String)
    (category : Nat) (filtersPresent : Bool) (selected_tags : List String) :
    List Thread :=
  let qs := match query with
    | some q => if q = "" then threads else fuzzy_search threads q
    | none => threads
  if filtersPresent then
    qs.filter (fun t => decide (t.category = category) && !t.is_deleted
      && t.tags.any (fun tg => selected_tags.contains tg))
  else
    qs.filter (fun t => decide (t.category = category) && !t.is_deleted)

/-- `ThreadListView.get_queryset` (src/threads/views.py, lines 32-41): the
filtered candidates ordered by the single sort key. -/
def get_queryset (threads : List Thread) (query : Option String) (category : Nat)
    (filtersPresent : Bool) (selected_tags : List String) (order_by : String) :
    List Thread :=
  orderByThreads order_by
    (threadListCandidates threads query category filtersPresent selected_tags)

/-- `ThreadListView.dispatch` (src/threads/views.py, lines 51-54): `Http404`
unless the sort key is one of the two recognized descending keys; otherwise the
listing is produced. -/
def threadListDispatch (threads : List Thread) (query : Option String)
    (category : Nat) (filtersPresent : Bool) (selected_tags : List String)
    (order_by : String) : Except String (List Thread) :=
  if order_by = "-created_at" ∨ order_by = "-upvote_count" then
    .ok (get_queryset threads query category filtersPresent selected_tags order_by)
  else
    .error "Invalid content parameters!"

/-- `ThreadDetailView.get_object` through `get_queryset`
(src/threads/views.py): the detail queryset is pre-filtered with
`is_deleted=False`, so lookup by primary key resolves only live threads. -/
def threadDetailGetObject (threads : List Thread) (pk : Nat) : Option Thread :=
  (threads.filter (fun t => !t.is_deleted)).find? (fun t => t.id == pk)

/-- The replies shown by `ThreadDetailView.get_context_data`
(src/threads/views.py, lines 162-168): the replies of the thread with
`is_deleted=False`, ordered by the single sort key. -/
def repliesContext (replies : List Reply) (threadId : Nat) (order_by : String) :
    List Reply :=
  List.insertionSort (replyKeyGE order_by)
    (replies.filter (fun r => r.thread == threadId && !r.is_deleted))

/-- `ThreadDetailView.dispatch` (src/threads/views.py, lines 170-173): `Http404`
unless the sort key is recognized; otherwise the thread is resolved and its
live replies are listed. -/
def threadDetailDispatch (threads : List Thread) (replies : List Reply)
    (pk : Nat) (order_by : String) :
    Except String (Option Thread × List Reply) :=
  if order_by = "-created_at" ∨ order_by = "-upvote_count" then
    .ok (threadDetailGetObject threads pk, repliesContext replies pk order_by)
  else
    .error "Invalid ordering parameter!"

/-- The outputs the store may legally return for the single-key
`.order_by(key)` issued by the listing: a permutation of the candidate rows
that is non-strictly sorted by the key.  No secondary key is sent, so the
relative order of rows equal under the key is unconstrained. -/
def orderByAdmissible (key : String) (input output : List Thread) : Prop :=
  input.Perm output ∧ output.Sorted (threadKeyGE key)

/-- The ordering the spec prescribes for MOST_UPVOTED: upvote count descending
with ties broken by creation timestamp descending. -/
def mostUpvotedTieBreak (a b : Thread) : Prop :=
  b.upvote_count < a.upvote_count
  ∨ (b.upvote_count = a.upvote_count ∧ b.created_at ≤ a.created_at)

instance : DecidableRel mostUpvotedTieBreak :=
  fun _ _ => inferInstanceAs (Decidable (_ ∨ _))

/-- A concrete live thread, older and with the same upvote count as
`threadB`. -/
def threadA : Thread :=
  { id := 1, category := 1, title := "Has the CS F111 handout been released?",
    author := 10, created_at := 0, upvote_count := 5, upvotes := {2, 3, 4, 5, 6},
    tags := ["#midsem"], is_locked := false, is_deleted := false }

/-- A concrete live thread, newer and with the same upvote count as
`threadA`. -/
def threadB : Thread :=
  { id := 2, category := 1,
    title := "Anyone have previous year midsem papers for CS F211?",
    author := 11, created_at := 10, upvote_count := 5, upvotes := {2, 3, 4, 5, 6},
    tags := [], is_locked := false, is_deleted := false }

/-- Modelled from the spec: `Thread.update_upvotes` is called by
`UpvoteView.post` (src/threads/views.py, lines 299-301) and by
populate_data.py, but its body is not under src/.  Spec section 4.4: if the
voter is already recorded, remove the voter and decrement `upvote_count` by 1;
otherwise add the voter and increment `upvote_count` by 1. -/
def Thread.update_upvotes (t : Thread) (voter : Nat) : Thread :=
  if voter ∈ t.upvotes then
    { t with upvotes := t.upvotes.erase voter, upvote_count := t.upvote_count - 1 }
  else
    { t with upvotes := insert voter t.upvotes, upvote_count := t.upvote_count + 1 }

/-- Modelled from the spec: `Reply.update_upvotes`, the same toggle as on
threads (spec section 4.4), scoped per reply. -/
def Reply.update_upvotes (r : Reply) (voter : Nat) : Reply :=
  if voter ∈ r.upvotes then
    { r with upvotes := r.upvotes.erase voter, upvote_count := r.upvote_count - 1 }
  else
    { r with upvotes := insert voter r.upvotes, upvote_count := r.upvote_count + 1 }

/-- The denormalized-count invariant of spec section 3: `upvote_count` equals
the cardinality of the voter set. -/
abbrev Thread.upvoteInvariant (t : Thread) : Prop := t.upvote_count = t.upvotes.card

/-- The denormalized-count invariant for replies. -/
abbrev Reply.upvoteInvariant (r : Reply) : Prop := r.upvote_count = r.upvotes.card

/-- The upvote-assignment step of `create_content_worker`
(src/threads/management/commands/large_data.py, lines 201-207): when the drawn
`num_votes` is positive, `thread.upvotes.set(voters)` replaces the voter set by
the sample drawn as `random.sample(user_ids, k=min(num_votes, len(user_ids)))`
and `thread.upvote_count` is assigned `num_votes` itself. -/
def largeDataAssignUpvotes (t : Thread) (numVotes : Nat) (voters : Finset Nat) :
    Thread :=
  if 0 < numVotes then { t with upvotes := voters, upvote_count := numVotes } else t

/-- A bound reply form as `ThreadDetailView.post` sees it: the posted content
and the verdict of `form.is_valid()`. -/
structure ReplySubmission where
  content : String
  valid : Bool

/-- `ThreadDetailView.post` with `form_valid` (src/threads/views.py, lines
142-155): a reply is created only when the form validates and the thread is
not locked; the created reply is bound to the resolved thread and the
requesting user, is live, and starts with no upvotes.  Returns the reply table
afterwards and whether the submission was accepted. -/
def threadDetailPost (replies : List Reply) (t : Thread) (sub : ReplySubmission)
    (author newId : Nat) (now : Int) : List Reply × Bool :=
  if sub.valid && !t.is_locked then
    ({ id := newId, thread := t.id, author := author, content := sub.content,
       created_at := now, upvote_count := 0, upvotes := ∅,
       is_deleted := false } :: replies, true)
  else
    (replies, false)

/-- The shared redirect-target logic of the `get_success_url` and
`get_redirect_url` methods of src/threads/views.py (ThreadCreateView lines
74-78, UpvoteView lines 293-297, and the parallel views): `nxt` is
`request.GET.get('next')` (falsy when absent or empty), `allowed` is the
verdict of `url_has_allowed_host_and_scheme` against the configured
`settings.ALLOWED_HOSTS`, and `fallback` the fixed internal route built by
`reverse_lazy`. -/
def redirectTarget (nxt : Option String) (allowed : String → Bool)
    (fallback : String) : String :=
  match nxt with
  | some n => if n ≠ "" ∧ allowed n = true then n else fallback
  | none => fallback

/-- A concrete live reply on `threadA` satisfying the count invariant. -/
def replyA : Reply :=
  { id := 1, thread := 1, author := 11, content := "Check the resource section!",
    created_at := 3, upvote_count := 2, upvotes := {4, 6}, is_deleted := false }

/-- A concrete locked thread. -/
def threadL : Thread :=
  { threadA with id := 3, is_locked := true }

end Forum

namespace Forum

/-- C1: a report submission is rejected with the rate-limit error if and only
if the reporter already has 3 or more reports inside the trailing 5-minute
window ending at submission time; on rejection no report is created, when the
count is below 3 the submission creates exactly one new pending report by this
reporter timestamped now, and in particular a 4th report filed once the window
has elapsed (all previous reports older than 5 minutes) succeeds. -/
theorem fileReport_rate_limit (reports : List Report) (reporter pk : Nat)
    (reason : String) (now : Int) (ty : String)
    (hty : ty = "thread" ∨ ty = "reply") :
    (reportCreatePost reports reporter ty pk reason now = .error .rateLimited
      ↔ 3 ≤ reportWindowCount reports reporter now)
    ∧ (3 ≤ reportWindowCount reports reporter now →
        ∀ rep rest, reportCreatePost reports reporter ty pk reason now ≠ .ok (rep, rest))
    ∧ (reportWindowCount reports reporter now < 3 →
        reportCreatePost reports reporter ty pk reason now =
          .ok (mkReport reporter ty pk reason now,
            mkReport reporter ty pk reason now :: reports)
        ∧ (mkReport reporter ty pk reason now).reporter = reporter
        ∧ (mkReport reporter ty pk reason now).created_at = now
        ∧ (mkReport reporter ty pk reason now).status = .pending)
    ∧ ((∀ r ∈ reports, r.created_at < now - 300) →
        reportCreatePost reports reporter ty pk reason now =
          .ok (mkReport reporter ty pk reason now,
            mkReport reporter ty pk reason now :: reports)) := by
  have hwin : (∀ r ∈ reports, r.created_at < now - 300) →
      reportWindowCount reports reporter now = 0 := by
    intro hold
    unfold reportWindowCount
    rw [List.length_eq_zero, List.filter_eq_nil_iff]
    intro r hr
    have := hold r hr
    simp only [decide_eq_true_eq, not_and]
    intro _
    omega
  unfold reportCreatePost
  rw [if_pos hty]
  by_cases hcnt : 3 ≤ reportWindowCount reports reporter now
  · rw [if_pos hcnt]
    refine ⟨by simp [hcnt], fun _ rep rest h => by simp at h,
      fun hlt => absurd hcnt (by omega), fun hold => ?_⟩
    exact absurd hcnt (by rw [hwin hold]; omega)
  · rw [if_neg hcnt]
    exact ⟨by simp [hcnt], fun h => absurd h hcnt,
      fun _ => ⟨rfl, rfl, rfl, rfl⟩, fun _ => rfl⟩

/-- Witness for C1 at a concrete input: an empty report table has window count
0, and a submission at time 1000 creates the pending report. -/
theorem fileReport_rate_limit_witness :
    reportWindowCount [] 5 1000 < 3
    ∧ reportCreatePost [] 5 "thread" 9 "spam" 1000 =
        .ok (mkReport 5 "thread" 9 "spam" 1000, mkReport 5 "thread" 9 "spam" 1000 :: [])
    ∧ (mkReport 5 "thread" 9 "spam" 1000).status = .pending :=
  ⟨by decide,
    ((fileReport_rate_limit [] 5 9 "spam" 1000 "thread" (Or.inl rfl)).2.2.1 (by decide)).1,
    ((fileReport_rate_limit [] 5 9 "spam" 1000 "thread" (Or.inl rfl)).2.2.1 (by decide)).2.2.2⟩

/-- C8: a submission whose target kind is outside \x7bthread, reply\x7d is
rejected by `dispatch` before any report is created, and every report created
through the submission flow has exactly one target set: a thread reference or
a reply reference, never both and never neither. -/
theorem report_exactly_one_target (reports : List Report) (reporter pk : Nat)
    (reason : String) (now : Int) (ty : String) :
    (ty ≠ "thread" ∧ ty ≠ "reply" →
      reportCreatePost reports reporter ty pk reason now = .error .http404)
    ∧ (∀ rep rest, reportCreatePost reports reporter ty pk reason now = .ok (rep, rest) →
        (rep.thread = some pk ∧ rep.reply = none) ∨
        (rep.reply = some pk ∧ rep.thread = none)) := by
  constructor
  · intro ⟨h1, h2⟩
    unfold reportCreatePost
    rw [if_neg (by simp [h1, h2])]
  · intro rep rest h
    unfold reportCreatePost at h
    by_cases hty : ty = "thread" ∨ ty = "reply"
    · rw [if_pos hty] at h
      by_cases hcnt : 3 ≤ reportWindowCount reports reporter now
      · rw [if_pos hcnt] at h
        exact absurd h (by simp)
      · rw [if_neg hcnt] at h
        simp only [Except.ok.injEq, Prod.mk.injEq] at h
        obtain ⟨hrep, -⟩ := h
        rcases hty with hth | hrp
        · subst hth
          left
          rw [← hrep]
          exact ⟨by simp [mkReport], by simp [mkReport]⟩
        · subst hrp
          right
          rw [← hrep]
          exact ⟨by simp [mkReport], by simp [mkReport]⟩
    · rw [if_neg hty] at h
      exact absurd h (by simp)

/-- Witness for C8 at a concrete input: target kind `user` is rejected with the
404 error, and a `reply` submission yields a report whose only target is the
reply reference. -/
theorem report_exactly_one_target_witness :
    reportCreatePost [] 5 "user" 9 "spam" 1000 = .error .http404
    ∧ ((mkReport 5 "reply" 9 "spam" 1000).thread = some 9
          ∧ (mkReport 5 "reply" 9 "spam" 1000).reply = none
        ∨ ((mkReport 5 "reply" 9 "spam" 1000).reply = some 9
          ∧ (mkReport 5 "reply" 9 "spam" 1000).thread = none)) :=
  ⟨(report_exactly_one_target [] 5 9 "spam" 1000 "user").1 ⟨by decide, by decide⟩,
    (report_exactly_one_target [] 5 9 "spam" 1000 "reply").2
      (mkReport 5 "reply" 9 "spam" 1000) (mkReport 5 "reply" 9 "spam" 1000 :: [])
      (by rfl)⟩

/-- C4: with an empty or absent query string the thread listing falls back to
exactly the non-deleted threads of the target category (no full-text filter and
no error: the dispatch succeeds on a recognized sort key), while a non-empty
query restricts the candidates to the fuzzy-search results. -/
theorem empty_query_fallback (threads : List Thread) (category : Nat)
    (key : String) (q : String) (query : Option String)
    (hquery : query = none ∨ query = some "") :
    (∀ t, t ∈ get_queryset threads query category false [] key ↔
        (t ∈ threads ∧ t.category = category ∧ t.is_deleted = false))
    ∧ threadListDispatch threads query category false [] "-created_at" =
        .ok (get_queryset threads query category false [] "-created_at")
    ∧ (q ≠ "" → ∀ t, t ∈ get_queryset threads (some q) category false [] key →
        t ∈ fuzzy_search threads q) := by
  refine ⟨?_, ?_, ?_⟩
  · intro t
    unfold get_queryset orderByThreads
    rw [(List.perm_insertionSort (threadKeyGE key) _).mem_iff]
    rcases hquery with h | h <;> subst h <;>
      simp [threadListCandidates, List.mem_filter]
  · unfold threadListDispatch
    rw [if_pos (Or.inl rfl)]
  · intro hq t ht
    unfold get_queryset orderByThreads at ht
    have ht' := (List.perm_insertionSort (threadKeyGE key) _).subset ht
    unfold threadListCandidates at ht'
    simp [hq, List.mem_filter] at ht'
    exact ht'.1

/-- Witness for C4 at a concrete input: with no query the listing keeps the
live category-1 thread `threadA`, and with the non-empty query `midsem` the
listed `threadB` indeed comes from the fuzzy search. -/
theorem empty_query_fallback_witness :
    (threadA ∈ get_queryset [threadA, threadB] none 1 false [] "-created_at" ↔
      (threadA ∈ [threadA, threadB] ∧ threadA.category = 1 ∧ threadA.is_deleted = false))
    ∧ threadB ∈ fuzzy_search [threadA, threadB] "midsem" :=
  ⟨(empty_query_fallback [threadA, threadB] 1 "-created_at" "midsem" none (Or.inl rfl)).1
      threadA,
    (empty_query_fallback [threadA, threadB] 1 "-created_at" "midsem" none (Or.inl rfl)).2.2
      (by decide) threadB (by decide)⟩

/-- C5 counterexample: the listing orders by the single key `-upvote_count`
with no secondary key, and the concrete listing of two threads tying at 5
upvotes returns the older thread first, so the returned sequence is not ordered
with ties broken by creation timestamp descending as the claim states. -/
theorem most_upvoted_tie_break_counterexample :
    threadListDispatch [threadA, threadB] none 1 false [] "-upvote_count" =
      .ok [threadA, threadB]
    ∧ threadA.upvote_count = threadB.upvote_count
    ∧ threadA.created_at < threadB.created_at
    ∧ ¬ ([threadA, threadB].Sorted mostUpvotedTieBreak) :=
  ⟨by rfl, by decide, by decide, by decide⟩

/-- C5 amended: every listing the dispatch returns is a permutation of the
candidate rows sorted by the requested key alone, in particular sorted by
upvote count descending for MOST_UPVOTED and by creation timestamp descending
for NEWEST; the code sends no secondary key, so the relative order of threads
equal under the key is not constrained. -/
theorem thread_list_ordering (threads : List Thread) (query : Option String)
    (category : Nat) (filtersPresent : Bool) (selected_tags : List String)
    (key : String) (out : List Thread)
    (h : threadListDispatch threads query category filtersPresent selected_tags key =
      .ok out) :
    orderByAdmissible key
      (threadListCandidates threads query category filtersPresent selected_tags) out
    ∧ (key = "-upvote_count" →
        out.Sorted (fun a b => b.upvote_count ≤ a.upvote_count))
    ∧ (key = "-created_at" →
        out.Sorted (fun a b => b.created_at ≤ a.created_at)) := by
  have hout : out = get_queryset threads query category filtersPresent selected_tags key := by
    unfold threadListDispatch at h
    by_cases hk : key = "-created_at" ∨ key = "-upvote_count"
    · rw [if_pos hk] at h
      exact (Except.ok.inj h).symm
    · rw [if_neg hk] at h
      exact absurd h (by simp)
  subst hout
  have hsorted : (get_queryset threads query category filtersPresent selected_tags
      key).Sorted (threadKeyGE key) := List.sorted_insertionSort _ _
  have hperm : (get_queryset threads query category filtersPresent selected_tags
      key).Perm (threadListCandidates threads query category filtersPresent selected_tags) :=
    List.perm_insertionSort _ _
  exact ⟨⟨hperm.symm, hsorted⟩,
    fun hk => hsorted.imp (fun hab => hab.1 hk),
    fun hk => hsorted.imp (fun hab => hab.2 hk)⟩

/-- Witness for C5 amended at a concrete input: the concrete MOST_UPVOTED
listing is an admissible answer for its candidates and is sorted by upvote
count descending. -/
theorem thread_list_ordering_witness :
    threadListDispatch [threadA, threadB] none 1 false [] "-upvote_count" =
      .ok [threadA, threadB]
    ∧ orderByAdmissible "-upvote_count"
        (threadListCandidates [threadA, threadB] none 1 false []) [threadA, threadB]
    ∧ [threadA, threadB].Sorted (fun a b => b.upvote_count ≤ a.upvote_count) :=
  ⟨by rfl,
    (thread_list_ordering [threadA, threadB] none 1 false [] "-upvote_count"
      [threadA, threadB] (by rfl)).1,
    (thread_list_ordering [threadA, threadB] none 1 false [] "-upvote_count"
      [threadA, threadB] (by rfl)).2.1 rfl⟩

/-- C6: soft-deleted content is excluded everywhere: no thread of the listing
has `is_deleted` true (with or without tag filters), the detail view never
resolves a soft-deleted thread, and the replies shown for a thread never
include a soft-deleted reply. -/
theorem soft_deleted_excluded (threads : List Thread) (replies : List Reply)
    (query : Option String) (category pk : Nat) (filtersPresent : Bool)
    (selected_tags : List String) (key : String) :
    (∀ t ∈ get_queryset threads query category filtersPresent selected_tags key,
        t.is_deleted = false)
    ∧ (∀ t, threadDetailGetObject threads pk = some t → t.is_deleted = false)
    ∧ (∀ r ∈ repliesContext replies pk key, r.is_deleted = false) := by
  refine ⟨?_, ?_, ?_⟩
  · intro t ht
    unfold get_queryset orderByThreads at ht
    have ht' := (List.perm_insertionSort (threadKeyGE key) _).subset ht
    unfold threadListCandidates at ht'
    cases filtersPresent <;> simp [List.mem_filter] at ht' <;> tauto
  · intro t ht
    unfold threadDetailGetObject at ht
    have hmem := List.mem_of_find?_eq_some ht
    have h2 := (List.mem_filter.mp hmem).2
    simpa using h2
  · intro r hr
    unfold repliesContext at hr
    have hr' := (List.perm_insertionSort (replyKeyGE key) _).subset hr
    have h2 := (List.mem_filter.mp hr').2
    simp at h2
    exact h2.2

/-- Witness for C6 at a concrete input: the live thread `threadA` is listed and
is indeed not soft-deleted. -/
theorem soft_deleted_excluded_witness :
    threadA ∈ get_queryset [threadA, threadB] none 1 false [] "-created_at"
    ∧ threadA.is_deleted = false :=
  ⟨by decide,
    (soft_deleted_excluded [threadA, threadB] [] none 1 1 false [] "-created_at").1
      threadA (by decide)⟩

/-- C9: both the thread listing and the thread detail view reject a sort key
outside the two recognized descending keys with an `Http404` before producing
any results, and on either recognized key they produce their results. -/
theorem invalid_order_key_rejected (threads : List Thread) (replies : List Reply)
    (query : Option String) (category pk : Nat) (filtersPresent : Bool)
    (selected_tags : List String) (key : String) :
    (key ≠ "-created_at" ∧ key ≠ "-upvote_count" →
      threadListDispatch threads query category filtersPresent selected_tags key =
        .error "Invalid content parameters!"
      ∧ threadDetailDispatch threads replies pk key =
        .error "Invalid ordering parameter!")
    ∧ (key = "-created_at" ∨ key = "-upvote_count" →
      threadListDispatch threads query category filtersPresent selected_tags key =
        .ok (get_queryset threads query category filtersPresent selected_tags key)
      ∧ threadDetailDispatch threads replies pk key =
        .ok (threadDetailGetObject threads pk, repliesContext replies pk key)) := by
  constructor
  · intro ⟨h1, h2⟩
    have hk : ¬ (key = "-created_at" ∨ key = "-upvote_count") := by tauto
    unfold threadListDispatch threadDetailDispatch
    rw [if_neg hk, if_neg hk]
    exact ⟨rfl, rfl⟩
  · intro hk
    unfold threadListDispatch threadDetailDispatch
    rw [if_pos hk, if_pos hk]
    exact ⟨rfl, rfl⟩

/-- Witness for C9 at a concrete input: the malformed key `upvote_count`
(missing the leading dash) is rejected by both views. -/
theorem invalid_order_key_rejected_witness :
    threadListDispatch [threadA] none 1 false [] "upvote_count" =
      .error "Invalid content parameters!"
    ∧ threadDetailDispatch [threadA] [] 1 "upvote_count" =
      .error "Invalid ordering parameter!" :=
  (invalid_order_key_rejected [threadA] [] none 1 1 false [] "upvote_count").1
    ⟨by decide, by decide⟩

/-- C2: the large_data.py population step breaks the invariant that
`upvote_count` equals the cardinality of the voter set, at a reachable input:
run with a single user (`user_ids = [42]`) and a drawn `num_votes` of 2,
`random.sample` returns the one available voter (its size is `min 2 1`), the
voter set is replaced by it, and `upvote_count` is assigned 2, so the stored
count is 2 while the voter set has cardinality 1. -/
theorem large_data_upvote_count_mismatch :
    ({42} : Finset Nat).card = min 2 ([42] : List Nat).length
    ∧ (largeDataAssignUpvotes threadA 2 {42}).upvote_count = 2
    ∧ (largeDataAssignUpvotes threadA 2 {42}).upvotes.card = 1
    ∧ ¬ (largeDataAssignUpvotes threadA 2 {42}).upvoteInvariant :=
  ⟨by decide, by decide, by decide, by decide⟩

/-- C3: the upvote toggle on a thread or a reply removes the voter and
decrements the count by 1 when the voter is recorded, otherwise adds the voter
and increments the count by 1; assuming the count invariant, two successive
toggles by the same voter return the target to its original voter set and
count (for threads and for replies alike). -/
theorem update_upvotes_toggle (t : Thread) (r : Reply) (voter : Nat)
    (ht : t.upvoteInvariant) (hr : r.upvoteInvariant) :
    ((voter ∈ t.upvotes →
        t.update_upvotes voter =
          { t with upvotes := t.upvotes.erase voter,
                   upvote_count := t.upvote_count - 1 })
      ∧ (voter ∉ t.upvotes →
        t.update_upvotes voter =
          { t with upvotes := insert voter t.upvotes,
                   upvote_count := t.upvote_count + 1 })
      ∧ (t.update_upvotes voter).update_upvotes voter = t)
    ∧ ((voter ∈ r.upvotes →
        r.update_upvotes voter =
          { r with upvotes := r.upvotes.erase voter,
                   upvote_count := r.upvote_count - 1 })
      ∧ (voter ∉ r.upvotes →
        r.update_upvotes voter =
          { r with upvotes := insert voter r.upvotes,
                   upvote_count := r.upvote_count + 1 })
      ∧ (r.update_upvotes voter).update_upvotes voter = r) := by
  constructor
  · refine ⟨fun h => by rw [Thread.update_upvotes, if_pos h],
      fun h => by rw [Thread.update_upvotes, if_neg h], ?_⟩
    by_cases h : voter ∈ t.upvotes
    · have hc : 1 ≤ t.upvote_count := by
        rw [ht]
        exact Finset.card_pos.mpr ⟨voter, h⟩
      have h2 : voter ∉ t.upvotes.erase voter := Finset.not_mem_erase _ _
      simp [Thread.update_upvotes, h, h2, Finset.insert_erase h,
        Nat.sub_add_cancel hc]
    · have h2 : voter ∈ insert voter t.upvotes := Finset.mem_insert_self _ _
      simp [Thread.update_upvotes, h, h2, Finset.erase_insert h]
  · refine ⟨fun h => by rw [Reply.update_upvotes, if_pos h],
      fun h => by rw [Reply.update_upvotes, if_neg h], ?_⟩
    by_cases h : voter ∈ r.upvotes
    · have hc : 1 ≤ r.upvote_count := by
        rw [hr]
        exact Finset.card_pos.mpr ⟨voter, h⟩
      have h2 : voter ∉ r.upvotes.erase voter := Finset.not_mem_erase _ _
      simp [Reply.update_upvotes, h, h2, Finset.insert_erase h,
        Nat.sub_add_cancel hc]
    · have h2 : voter ∈ insert voter r.upvotes := Finset.mem_insert_self _ _
      simp [Reply.update_upvotes, h, h2, Finset.erase_insert h]

/-- Witness for C3 at concrete inputs: `threadA` and `replyA` satisfy the
count invariant, and toggling twice returns each of them to its original
state (voter 2 is recorded on `threadA`, voter 9 is not recorded on
`replyA`). -/
theorem update_upvotes_toggle_witness :
    threadA.upvoteInvariant ∧ replyA.upvoteInvariant
    ∧ (threadA.update_upvotes 2).update_upvotes 2 = threadA
    ∧ (replyA.update_upvotes 9).update_upvotes 9 = replyA :=
  ⟨by decide, by decide,
    (update_upvotes_toggle threadA replyA 2 (by decide) (by decide)).1.2.2,
    (update_upvotes_toggle threadA replyA 9 (by decide) (by decide)).2.2.2⟩

/-- C7: a reply posted to a locked thread is rejected and creates no reply
record; on an unlocked thread a valid submission creates exactly one reply
bound to that thread and the requesting author. -/
theorem locked_thread_blocks_reply (replies : List Reply) (t : Thread)
    (sub : ReplySubmission) (author newId : Nat) (now : Int) :
    (t.is_locked = true →
      threadDetailPost replies t sub author newId now = (replies, false))
    ∧ (t.is_locked = false → sub.valid = true →
      threadDetailPost replies t sub author newId now =
        ({ id := newId, thread := t.id, author := author, content := sub.content,
           created_at := now, upvote_count := 0, upvotes := ∅,
           is_deleted := false } :: replies, true)) := by
  constructor
  · intro h
    rw [threadDetailPost, if_neg (by simp [h])]
  · intro h hv
    rw [threadDetailPost, if_pos (by simp [h, hv])]

/-- Witness for C7 at concrete inputs: the locked `threadL` rejects a valid
submission leaving the reply table empty, and the unlocked `threadA` accepts
it, creating exactly the one bound reply. -/
theorem locked_thread_blocks_reply_witness :
    threadL.is_locked = true
    ∧ threadDetailPost [] threadL ⟨"hi", true⟩ 7 99 50 = ([], false)
    ∧ threadA.is_locked = false
    ∧ threadDetailPost [] threadA ⟨"hi", true⟩ 7 99 50 =
        ([{ id := 99, thread := threadA.id, author := 7, content := "hi",
            created_at := 50, upvote_count := 0, upvotes := ∅,
            is_deleted := false }], true) :=
  ⟨by decide,
    (locked_thread_blocks_reply [] threadL ⟨"hi", true⟩ 7 99 50).1 (by decide),
    by decide,
    (locked_thread_blocks_reply [] threadA ⟨"hi", true⟩ 7 99 50).2 (by decide) rfl⟩

/-- C10: the caller-supplied next parameter is used as the redirect target
only when it is non-empty and passes the allowed-host-and-scheme check; an
absent, empty or rejected value redirects to the fixed internal fallback
route, and any redirect other than the fallback is a supplied value that
passed the check. -/
theorem safe_redirect (nxt : String) (allowed : String → Bool)
    (fallback : String) :
    redirectTarget none allowed fallback = fallback
    ∧ (allowed nxt = false → redirectTarget (some nxt) allowed fallback = fallback)
    ∧ (nxt ≠ "" → allowed nxt = true →
        redirectTarget (some nxt) allowed fallback = nxt)
    ∧ (∀ m : Option String, redirectTarget m allowed fallback ≠ fallback →
        ∃ n, m = some n ∧ allowed n = true ∧
          redirectTarget m allowed fallback = n) := by
  refine ⟨rfl, ?_, ?_, ?_⟩
  · intro h
    rw [redirectTarget, if_neg (by simp [h])]
  · intro hne htrue
    rw [redirectTarget, if_pos ⟨hne, htrue⟩]
  · intro m hm
    match m with
    | none => exact absurd rfl hm
    | some n =>
      rw [redirectTarget] at hm ⊢
      by_cases hc : n ≠ "" ∧ allowed n = true
      · rw [if_pos hc] at hm ⊢
        exact ⟨n, rfl, hc.2, rfl⟩
      · rw [if_neg hc] at hm
        exact absurd rfl hm

/-- Witness for C10 at concrete inputs: with the check accepting exactly the
internal URL, an absent next and an external next both fall back to the fixed
route, while the internal next is used as given. -/
theorem safe_redirect_witness :
    redirectTarget none (fun s => s == "/threads/1/") "/categories/" = "/categories/"
    ∧ redirectTarget (some "https://evil.example/x") (fun s => s == "/threads/1/")
        "/categories/" = "/categories/"
    ∧ redirectTarget (some "/threads/1/") (fun s => s == "/threads/1/")
        "/categories/" = "/threads/1/" :=
  ⟨(safe_redirect "x" (fun s => s == "/threads/1/") "/categories/").1,
    (safe_redirect "https://evil.example/x" (fun s => s == "/threads/1/")
      "/categories/").2.1 (by decide),
    (safe_redirect "/threads/1/" (fun s => s == "/threads/1/")
      "/categories/").2.2.1 (by decide) (by decide)⟩

end Forum
